import Mathlib

/-!
A shallow embedding of the calibration / angle-to-screen mapping subsystem of
the gaze_estimation_engine repository, and proofs about it.

Conventions of the embedding:
* Python floats are modelled as rationals (ℚ); `math.sqrt((a - b) ** 2)` is the
  real number `|a - b|`.
* A Python exception is a value of `PyErr`; fallible code returns `Except PyErr α`.
* Python positional-call semantics are modelled explicitly where the source
  calls a method with an argument list: a call whose number of positional
  arguments differs from the method's parameter count raises `TypeError`.
* Object state is passed explicitly: a mutating method takes the object and
  returns the updated object.
-/

/-- Python exception kinds relevant to this code base. `emptyCalibrationError`
is the error type named by the design documentation; the source code under
`src/` never defines or raises it. -/
inductive PyErr where
  | zeroDivisionError
  | typeError
  | indexError
  | emptyCalibrationError
  | predictionError
  deriving DecidableEq, Repr

/-- Modelled from the spec: one six-field calibration sample (the source file
defining it, src/calibration_map.py, is not under src/). All six fields are set
together as one immutable record. -/
structure CalibrationSample where
  monitor_x : ℚ
  monitor_y : ℚ
  head_x : ℚ
  head_y : ℚ
  theta : ℚ
  phi : ℚ
  deriving DecidableEq, Repr

/-- Modelled from the spec: CalibrationMap (its source file is not under src/)
is an ordered, append-only collection of CalibrationSamples; it exposes
parallel per-field views, all of the same length and order. -/
structure CalibrationMap where
  samples : List CalibrationSample
  deriving DecidableEq, Repr

/-- Parallel view: screen x coordinates, in insertion order. -/
def CalibrationMap.monitor_x_values (m : CalibrationMap) : List ℚ :=
  m.samples.map CalibrationSample.monitor_x

/-- Parallel view: screen y coordinates, in insertion order. -/
def CalibrationMap.monitor_y_values (m : CalibrationMap) : List ℚ :=
  m.samples.map CalibrationSample.monitor_y

/-- Parallel view: head x positions, in insertion order. -/
def CalibrationMap.head_x_values (m : CalibrationMap) : List ℚ :=
  m.samples.map CalibrationSample.head_x

/-- Parallel view: head y positions, in insertion order. -/
def CalibrationMap.head_y_values (m : CalibrationMap) : List ℚ :=
  m.samples.map CalibrationSample.head_y

/-- Parallel view: horizontal gaze angles, in insertion order. -/
def CalibrationMap.theta_values (m : CalibrationMap) : List ℚ :=
  m.samples.map CalibrationSample.theta

/-- Parallel view: vertical gaze angles, in insertion order. -/
def CalibrationMap.phi_values (m : CalibrationMap) : List ℚ :=
  m.samples.map CalibrationSample.phi

/-- Modelled from the spec: `add_calibration_point` appends one six-field
sample; all parallel views grow in lock-step. -/
def CalibrationMap.add_calibration_point (m : CalibrationMap)
    (monitor_x monitor_y head_x head_y theta phi : ℚ) : CalibrationMap :=
  ⟨m.samples ++ [⟨monitor_x, monitor_y, head_x, head_y, theta, phi⟩]⟩

/-- The InterpolationAgent of src/src/backend/calibration_agents.py: its state
is its backing CalibrationMap (initialised empty by `initialize_cal_map`). -/
structure InterpolationAgent where
  calibration_map : CalibrationMap
  deriving DecidableEq, Repr

/-- Embeds `InterpolationAgent.calibration_step` (6 parameters besides self):
delegates to `CalibrationMap.add_calibration_point`. -/
def InterpolationAgent.calibration_step (a : InterpolationAgent)
    (monitor_x monitor_y head_x head_y theta phi : ℚ) : InterpolationAgent :=
  ⟨a.calibration_map.add_calibration_point monitor_x monitor_y head_x head_y theta phi⟩

/-- Embeds the source method `InterpolationAgent._interpolate`. The source
computes `distances = [sqrt((angle - ca) ** 2) for ca in calibration_angles]`
(the absolute difference), `weights = [1 / (d + 1e-6) for d in distances]`,
`numerator = sum(w * coord for w, coord in zip(weights, calibration_coordinates))`
and returns `numerator / sum(weights)`; dividing by a zero weight sum raises
ZeroDivisionError. The `position` parameter is accepted but unused (the
source's own TODO comment flags this). -/
def interpolate (position angle : ℚ)
    (calibration_coordinates calibration_angles : List ℚ) : Except PyErr ℚ :=
  let epsilon : ℚ := 1 / 1000000
  let distances := calibration_angles.map (fun calib_angle => |angle - calib_angle|)
  let weights := distances.map (fun distance => 1 / (distance + epsilon))
  let numerator := (List.zipWith (fun w coord => w * coord) weights calibration_coordinates).sum
  if weights.sum = 0 then Except.error PyErr.zeroDivisionError
  else Except.ok (numerator / weights.sum)

/-- Embeds `InterpolationAgent.calculate_point_of_regard` (4 parameters besides
self): interpolates theta against (monitor_x_values, theta_values) and phi
against (monitor_y_values, phi_values). -/
def InterpolationAgent.calculate_point_of_regard (a : InterpolationAgent)
    (head_x head_y theta phi : ℚ) : Except PyErr (ℚ × ℚ) :=
  match interpolate head_x theta a.calibration_map.monitor_x_values a.calibration_map.theta_values with
  | Except.error e => Except.error e
  | Except.ok x_screen =>
    match interpolate head_y phi a.calibration_map.monitor_y_values a.calibration_map.phi_values with
    | Except.error e => Except.error e
    | Except.ok y_screen => Except.ok (x_screen, y_screen)

/-- Method-call form of `calculate_point_of_regard`, returning the result
together with the post-call agent state. The source body only binds the locals
x_screen and y_screen and returns; no statement assigns to
`self.calibration_map`, so the post-call state is the receiver unchanged. -/
def InterpolationAgent.calculate_point_of_regard_run (a : InterpolationAgent)
    (head_x head_y theta phi : ℚ) : Except PyErr (ℚ × ℚ) × InterpolationAgent :=
  (a.calculate_point_of_regard head_x head_y theta phi, a)

/-- A positional call to `calibration_step`, which declares 6 parameters
besides self: fewer or more positional arguments raise TypeError (Python call
semantics). -/
def call_calibration_step (a : InterpolationAgent) (args : List ℚ) :
    Except PyErr InterpolationAgent :=
  match args with
  | [monitor_x, monitor_y, head_x, head_y, theta, phi] =>
      Except.ok (a.calibration_step monitor_x monitor_y head_x head_y theta phi)
  | _ => Except.error PyErr.typeError

/-- A positional call to `calculate_point_of_regard`, which declares 4
parameters besides self: fewer or more positional arguments raise TypeError
(Python call semantics). -/
def call_calculate_point_of_regard (a : InterpolationAgent) (args : List ℚ) :
    Except PyErr (ℚ × ℚ) :=
  match args with
  | [head_x, head_y, theta, phi] => a.calculate_point_of_regard head_x head_y theta phi
  | _ => Except.error PyErr.typeError

/-- The GazeEstimationEngine of src/src/gaze_estimation_engine.py, restricted
to the state the verified operations touch: the external gaze predictor
(`predict_gaze_vector(frame) -> (head_x, head_y, theta, phi)`, which may fail)
and the active calibration agent. `Frame` is the type of input images. -/
structure GazeEstimationEngine (Frame : Type) where
  gaze_net : Frame → Except PyErr (ℚ × ℚ × ℚ × ℚ)
  cal_agent : InterpolationAgent

/-- Embeds `GazeEstimationEngine.run_single_calibration_step`: unpacks
`_, _, theta, phi` from the predictor and then calls
`self.cal_agent.calibration_step(x, y, theta, phi)` — four positional
arguments, as in the source. -/
def GazeEstimationEngine.run_single_calibration_step {Frame : Type}
    (e : GazeEstimationEngine Frame) (x y : ℚ) (frame : Frame) :
    Except PyErr (GazeEstimationEngine Frame) :=
  match e.gaze_net frame with
  | Except.error err => Except.error err
  | Except.ok (_head_x, _head_y, theta, phi) =>
    match call_calibration_step e.cal_agent [x, y, theta, phi] with
    | Except.error err => Except.error err
    | Except.ok a => Except.ok ⟨e.gaze_net, a⟩

/-- Indexing `entry[i]` on a Python tuple/list: out of range raises IndexError. -/
def py_getitem (entry : List ℚ) (i : Nat) : Except PyErr ℚ :=
  match entry.get? i with
  | some v => Except.ok v
  | none => Except.error PyErr.indexError

/-- One iteration of the `run_calibration_steps` loop body: evaluates
`calibration_point[0]`, `calibration_point[1]`, `calibration_point[2]` and
runs the single step; any exception escapes to the surrounding handler. Batch
entries are modelled as Python sequences of values, frames included (frames
are represented by rationals fed to the predictor). -/
def run_one_calibration_entry (e : GazeEstimationEngine ℚ)
    (calibration_point : List ℚ) : Except PyErr (GazeEstimationEngine ℚ) :=
  match py_getitem calibration_point 0 with
  | Except.error err => Except.error err
  | Except.ok x =>
    match py_getitem calibration_point 1 with
    | Except.error err => Except.error err
    | Except.ok y =>
      match py_getitem calibration_point 2 with
      | Except.error err => Except.error err
      | Except.ok frame => e.run_single_calibration_step x y frame

/-- Embeds `GazeEstimationEngine.run_calibration_steps`: iterates over the
batch; `except Exception` catches every error of a single step, prints it and
continues with the next element. Returns the final engine state and the number
of caught (printed) failures. -/
def GazeEstimationEngine.run_calibration_steps (e : GazeEstimationEngine ℚ)
    (calibration_data : List (List ℚ)) : GazeEstimationEngine ℚ × Nat :=
  calibration_data.foldl
    (fun acc calibration_point =>
      match run_one_calibration_entry acc.1 calibration_point with
      | Except.ok e2 => (e2, acc.2)
      | Except.error _ => (acc.1, acc.2 + 1))
    (e, 0)

/-- Embeds `GazeEstimationEngine.predict_gaze_position`: unpacks
`_, _, theta, phi` from the predictor, then calls
`self.cal_agent.calculate_point_of_regard(theta, phi)` — two positional
arguments, as in the source — inside a `try` whose sole handler catches
ZeroDivisionError and returns `(None, None)`; any other exception propagates. -/
def GazeEstimationEngine.predict_gaze_position {Frame : Type}
    (e : GazeEstimationEngine Frame) (image : Frame) :
    Except PyErr (Option ℚ × Option ℚ) :=
  match e.gaze_net image with
  | Except.error err => Except.error err
  | Except.ok (_head_x, _head_y, theta, phi) =>
    match call_calculate_point_of_regard e.cal_agent [theta, phi] with
    | Except.ok (screen_x, screen_y) => Except.ok (some screen_x, some screen_y)
    | Except.error PyErr.zeroDivisionError => Except.ok (none, none)
    | Except.error err => Except.error err

/-- The per-sample weight of inverse-distance weighting, as the claims state
it: `w_i = 1 / (|a - a_i| + 1e-6)`. -/
def weight (a ai : ℚ) : ℚ := 1 / (|a - ai| + 1 / 1000000)

/-- Follows the claim's words (not the source): the claimed closed form
`(sum_i w_i * c_i) / (sum_i w_i)` with `w_i = 1 / (|a - a_i| + 1e-6)`, over
paired coordinates and angles. -/
def claimed_idw (a : ℚ) (cs as : List ℚ) : ℚ :=
  (List.zipWith (fun ci ai => weight a ai * ci) cs as).sum / (as.map (weight a)).sum

lemma interpolate_eq (position angle : ℚ) (cs as : List ℚ) :
    interpolate position angle cs as =
      if (as.map (weight angle)).sum = 0 then Except.error PyErr.zeroDivisionError
      else Except.ok ((List.zipWith (fun w c => w * c) (as.map (weight angle)) cs).sum /
        (as.map (weight angle)).sum) := by
  simp only [interpolate, weight, List.map_map]
  rfl

lemma weight_pos (a ai : ℚ) : 0 < weight a ai := by
  unfold weight
  positivity

lemma weights_sum_pos (a : ℚ) (as : List ℚ) (h : as ≠ []) :
    0 < (as.map (weight a)).sum := by
  apply List.sum_pos
  · intro x hx
    obtain ⟨ai, _, rfl⟩ := List.mem_map.mp hx
    exact weight_pos a ai
  · simpa using h

lemma zipWith_map_same {α β γ S : Type} (h : α → β → γ) (f : S → α) (g : S → β) :
    ∀ l : List S, List.zipWith h (l.map f) (l.map g) = l.map (fun s => h (f s) (g s))
  | [] => rfl
  | x :: xs => by simp [zipWith_map_same h f g xs]

lemma zipWith_mul_map_comm (w : ℚ → ℚ) :
    ∀ (as cs : List ℚ),
      List.zipWith (fun wv c => wv * c) (as.map w) cs =
        List.zipWith (fun c ai => w ai * c) cs as
  | [], cs => by cases cs <;> rfl
  | _ :: _, [] => rfl
  | a :: as, c :: cs => by
      simp only [List.map_cons, List.zipWith_cons_cons, zipWith_mul_map_comm w as cs,
        mul_comm]

lemma interpolate_single (pos a c ai : ℚ) :
    interpolate pos a [c] [ai] = Except.ok c := by
  have hw : weight a ai ≠ 0 := ne_of_gt (weight_pos a ai)
  rw [interpolate_eq]
  simp [hw, mul_div_cancel_left₀]

lemma calc_single_sample (s : CalibrationSample) (head_x head_y theta phi : ℚ) :
    InterpolationAgent.calculate_point_of_regard ⟨⟨[s]⟩⟩ head_x head_y theta phi =
      Except.ok (s.monitor_x, s.monitor_y) := by
  simp [InterpolationAgent.calculate_point_of_regard, CalibrationMap.monitor_x_values,
    CalibrationMap.monitor_y_values, CalibrationMap.theta_values, CalibrationMap.phi_values,
    interpolate_single]

lemma interpolate_nonempty (pos a : ℚ) (cs as : List ℚ) (h : as ≠ []) :
    interpolate pos a cs as = Except.ok (claimed_idw a cs as) := by
  rw [interpolate_eq, claimed_idw]
  rw [if_neg (ne_of_gt (weights_sum_pos a as h))]
  rw [zipWith_mul_map_comm]

lemma interpolate_map_perm (pos ang : ℚ) (f g : CalibrationSample → ℚ)
    {l1 l2 : List CalibrationSample} (h : l1.Perm l2) :
    interpolate pos ang (l1.map f) (l1.map g) =
      interpolate pos ang (l2.map f) (l2.map g) := by
  rw [interpolate_eq, interpolate_eq]
  have hsum : ((l1.map g).map (weight ang)).sum = ((l2.map g).map (weight ang)).sum :=
    List.Perm.sum_eq ((h.map g).map (weight ang))
  have hnum :
      (List.zipWith (fun w c => w * c) ((l1.map g).map (weight ang)) (l1.map f)).sum =
        (List.zipWith (fun w c => w * c) ((l2.map g).map (weight ang)) (l2.map f)).sum := by
    rw [List.map_map, List.map_map, zipWith_map_same, zipWith_map_same]
    exact List.Perm.sum_eq (h.map _)
  rw [hnum, hsum]

lemma calc_empty_eval :
    InterpolationAgent.calculate_point_of_regard ⟨⟨[]⟩⟩ 0 0 0 0 =
      Except.error PyErr.zeroDivisionError := rfl

/-- C1: the claim is false on the code: on an empty calibration map,
`calculate_point_of_regard` fails with the raw arithmetic division fault
ZeroDivisionError, which is not the distinct EmptyCalibrationError the claim
requires. -/
theorem calculate_point_of_regard_empty_counterexample :
    InterpolationAgent.calculate_point_of_regard ⟨⟨[]⟩⟩ 0 0 0 0 =
        Except.error PyErr.zeroDivisionError ∧
      InterpolationAgent.calculate_point_of_regard ⟨⟨[]⟩⟩ 0 0 0 0 ≠
        Except.error PyErr.emptyCalibrationError := by
  refine ⟨calc_empty_eval, fun hcontra => ?_⟩
  rw [calc_empty_eval] at hcontra
  injection hcontra with h2
  exact PyErr.noConfusion h2

/-- C1 (amended): for every agent whose calibration map holds zero samples,
`calculate_point_of_regard` fails with ZeroDivisionError, the raw arithmetic
division fault; no EmptyCalibrationError is defined or raised by the code. -/
theorem calculate_point_of_regard_empty_zeroDivision (agent : InterpolationAgent)
    (h : agent.calibration_map.samples = []) (head_x head_y theta phi : ℚ) :
    agent.calculate_point_of_regard head_x head_y theta phi =
      Except.error PyErr.zeroDivisionError := by
  simp [InterpolationAgent.calculate_point_of_regard, CalibrationMap.monitor_x_values,
    CalibrationMap.theta_values, h, interpolate]

/-- Witness for C1 (amended) at the concrete empty agent. -/
theorem calculate_point_of_regard_empty_zeroDivision_witness :
    (⟨⟨[]⟩⟩ : InterpolationAgent).calibration_map.samples = [] ∧
      InterpolationAgent.calculate_point_of_regard ⟨⟨[]⟩⟩ 1 2 3 4 =
        Except.error PyErr.zeroDivisionError :=
  ⟨rfl, calculate_point_of_regard_empty_zeroDivision ⟨⟨[]⟩⟩ rfl 1 2 3 4⟩

/-- C2: on every non-empty calibration map, `calculate_point_of_regard`
returns the inverse-distance-weighted average
`(sum_i w_i * c_i) / (sum_i w_i)` with `w_i = 1 / (|a - a_i| + 1e-6)`,
applied once with theta against (monitor_x_values, theta_values) and once with
phi against (monitor_y_values, phi_values). -/
theorem calculate_point_of_regard_idw_formula (agent : InterpolationAgent)
    (h : agent.calibration_map.samples ≠ []) (head_x head_y theta phi : ℚ) :
    agent.calculate_point_of_regard head_x head_y theta phi =
      Except.ok
        (claimed_idw theta agent.calibration_map.monitor_x_values
            agent.calibration_map.theta_values,
          claimed_idw phi agent.calibration_map.monitor_y_values
            agent.calibration_map.phi_values) := by
  have hth : agent.calibration_map.theta_values ≠ [] := by
    simpa [CalibrationMap.theta_values] using h
  have hph : agent.calibration_map.phi_values ≠ [] := by
    simpa [CalibrationMap.phi_values] using h
  simp [InterpolationAgent.calculate_point_of_regard,
    interpolate_nonempty _ _ _ _ hth, interpolate_nonempty _ _ _ _ hph]

/-- Witness for C2 at a concrete one-sample agent. -/
theorem calculate_point_of_regard_idw_formula_witness :
    (⟨⟨[⟨1, 2, 3, 4, 5, 6⟩]⟩⟩ : InterpolationAgent).calibration_map.samples ≠ [] ∧
      InterpolationAgent.calculate_point_of_regard ⟨⟨[⟨1, 2, 3, 4, 5, 6⟩]⟩⟩ 0 0 0 0 =
        Except.ok
          (claimed_idw 0
              (⟨⟨[⟨1, 2, 3, 4, 5, 6⟩]⟩⟩ : InterpolationAgent).calibration_map.monitor_x_values
              (⟨⟨[⟨1, 2, 3, 4, 5, 6⟩]⟩⟩ : InterpolationAgent).calibration_map.theta_values,
            claimed_idw 0
              (⟨⟨[⟨1, 2, 3, 4, 5, 6⟩]⟩⟩ : InterpolationAgent).calibration_map.monitor_y_values
              (⟨⟨[⟨1, 2, 3, 4, 5, 6⟩]⟩⟩ : InterpolationAgent).calibration_map.phi_values) :=
  ⟨by simp, calculate_point_of_regard_idw_formula _ (by simp) 0 0 0 0⟩

/-- C3: evaluation at a failing input. The engine passes only
(x, y, theta, phi) — four positional arguments — to the six-parameter
`calibration_step`, so even with a successful predictor the step fails with
TypeError and no sample is recorded. -/
theorem run_single_calibration_step_arity_typeError :
    GazeEstimationEngine.run_single_calibration_step
        (⟨fun _ => Except.ok (1, 2, 3, 4), ⟨⟨[]⟩⟩⟩ : GazeEstimationEngine ℚ) 100 200 0 =
      Except.error PyErr.typeError := rfl

/-- C4: evaluation at a failing input. `predict_gaze_position` passes only
(theta, phi) — two positional arguments — to the four-parameter
`calculate_point_of_regard`, so it fails with TypeError even though calling
`calculate_point_of_regard` itself with all four arguments succeeds on the
same (non-empty) agent. -/
theorem predict_gaze_position_arity_typeError :
    GazeEstimationEngine.predict_gaze_position
        (⟨fun _ => Except.ok (1, 2, 3, 4),
          ⟨⟨[⟨100, 200, 0, 0, 3, 4⟩]⟩⟩⟩ : GazeEstimationEngine ℚ) 0 =
        Except.error PyErr.typeError ∧
      InterpolationAgent.calculate_point_of_regard ⟨⟨[⟨100, 200, 0, 0, 3, 4⟩]⟩⟩ 1 2 3 4 =
        Except.ok (100, 200) :=
  ⟨rfl, calc_single_sample ⟨100, 200, 0, 0, 3, 4⟩ 1 2 3 4⟩

lemma predict_empty_eval :
    GazeEstimationEngine.predict_gaze_position
        (⟨fun _ => Except.ok (1, 2, 3, 4), ⟨⟨[]⟩⟩⟩ : GazeEstimationEngine ℚ) 0 =
      Except.error PyErr.typeError := rfl

/-- C5: the claim is false on the code: on an uncalibrated engine,
`predict_gaze_position` fails with TypeError (from the two-argument call to
the four-parameter `calculate_point_of_regard`); it neither surfaces an
EmptyCalibrationError nor produces an uncalibrated sentinel. -/
theorem predict_gaze_position_empty_counterexample :
    GazeEstimationEngine.predict_gaze_position
        (⟨fun _ => Except.ok (1, 2, 3, 4), ⟨⟨[]⟩⟩⟩ : GazeEstimationEngine ℚ) 0 =
        Except.error PyErr.typeError ∧
      GazeEstimationEngine.predict_gaze_position
          (⟨fun _ => Except.ok (1, 2, 3, 4), ⟨⟨[]⟩⟩⟩ : GazeEstimationEngine ℚ) 0 ≠
        Except.error PyErr.emptyCalibrationError := by
  refine ⟨predict_empty_eval, fun hcontra => ?_⟩
  rw [predict_empty_eval] at hcontra
  injection hcontra with h2
  exact PyErr.noConfusion h2

/-- C5 (amended): when `predict_gaze_position` runs while no calibration
sample exists and the predictor succeeds, it fails with TypeError from the
arity-mismatched call to `calculate_point_of_regard`; the handler that would
return (None, None) catches only ZeroDivisionError and is not reached, and no
EmptyCalibrationError exists in the code. -/
theorem predict_gaze_position_empty_typeError (e : GazeEstimationEngine ℚ)
    (image head_x head_y theta phi : ℚ)
    (hpred : e.gaze_net image = Except.ok (head_x, head_y, theta, phi))
    (hempty : e.cal_agent.calibration_map.samples = []) :
    e.predict_gaze_position image = Except.error PyErr.typeError := by
  simp [GazeEstimationEngine.predict_gaze_position, hpred, call_calculate_point_of_regard]

/-- Witness for C5 (amended) at a concrete uncalibrated engine. -/
theorem predict_gaze_position_empty_typeError_witness :
    (⟨fun _ => Except.ok (1, 2, 3, 4), ⟨⟨[]⟩⟩⟩ : GazeEstimationEngine ℚ).gaze_net 0 =
        Except.ok (1, 2, 3, 4) ∧
      (⟨fun _ => Except.ok (1, 2, 3, 4),
          ⟨⟨[]⟩⟩⟩ : GazeEstimationEngine ℚ).cal_agent.calibration_map.samples = [] ∧
      GazeEstimationEngine.predict_gaze_position
          (⟨fun _ => Except.ok (1, 2, 3, 4), ⟨⟨[]⟩⟩⟩ : GazeEstimationEngine ℚ) 0 =
        Except.error PyErr.typeError :=
  ⟨rfl, rfl, predict_gaze_position_empty_typeError _ 0 1 2 3 4 rfl rfl⟩

/-- C6: evaluation at the failing input. A batch of three well-formed entries
and one malformed entry is processed to the end — all four failures are caught
and counted, so the loop never aborts — but zero samples are recorded (each
well-formed step fails with TypeError from the calibration_step arity bug, the
malformed one with IndexError), not the three the claim requires. -/
theorem run_calibration_steps_batch_records_zero :
    (GazeEstimationEngine.run_calibration_steps
          ⟨fun q => Except.ok (q, q, q, q), ⟨⟨[]⟩⟩⟩
          [[100, 100, 5], [200, 200, 6], [300, 300, 7], [1]]).2 = 4 ∧
      ((GazeEstimationEngine.run_calibration_steps
          ⟨fun q => Except.ok (q, q, q, q), ⟨⟨[]⟩⟩⟩
          [[100, 100, 5], [200, 200, 6], [300, 300, 7], [1]]).1).cal_agent.calibration_map.samples =
        [] :=
  ⟨rfl, rfl⟩

/-- C7: on a calibration map holding exactly one sample,
`calculate_point_of_regard` returns exactly that sample's screen coordinates
for every query (the weighted sum reduces to the single term w * c / w = c). -/
theorem calculate_point_of_regard_single_sample (s : CalibrationSample)
    (head_x head_y theta phi : ℚ) :
    InterpolationAgent.calculate_point_of_regard ⟨⟨[s]⟩⟩ head_x head_y theta phi =
      Except.ok (s.monitor_x, s.monitor_y) :=
  calc_single_sample s head_x head_y theta phi

/-- C8: `calculate_point_of_regard` is invariant under any permutation of the
calibration samples: insertion order does not affect the result. -/
theorem calculate_point_of_regard_perm_invariant (a1 a2 : InterpolationAgent)
    (h : a1.calibration_map.samples.Perm a2.calibration_map.samples)
    (head_x head_y theta phi : ℚ) :
    a1.calculate_point_of_regard head_x head_y theta phi =
      a2.calculate_point_of_regard head_x head_y theta phi := by
  simp only [InterpolationAgent.calculate_point_of_regard, CalibrationMap.monitor_x_values,
    CalibrationMap.theta_values, CalibrationMap.monitor_y_values, CalibrationMap.phi_values]
  rw [interpolate_map_perm head_x theta CalibrationSample.monitor_x CalibrationSample.theta h,
    interpolate_map_perm head_y phi CalibrationSample.monitor_y CalibrationSample.phi h]

/-- Witness for C8 at a concrete two-sample swap. -/
theorem calculate_point_of_regard_perm_invariant_witness :
    (([⟨1, 2, 3, 4, 5, 6⟩, ⟨7, 8, 9, 10, 11, 12⟩] : List CalibrationSample).Perm
        [⟨7, 8, 9, 10, 11, 12⟩, ⟨1, 2, 3, 4, 5, 6⟩]) ∧
      InterpolationAgent.calculate_point_of_regard
          ⟨⟨[⟨1, 2, 3, 4, 5, 6⟩, ⟨7, 8, 9, 10, 11, 12⟩]⟩⟩ 0 0 0 0 =
        InterpolationAgent.calculate_point_of_regard
          ⟨⟨[⟨7, 8, 9, 10, 11, 12⟩, ⟨1, 2, 3, 4, 5, 6⟩]⟩⟩ 0 0 0 0 :=
  ⟨List.Perm.swap _ _ _,
    calculate_point_of_regard_perm_invariant _ _ (List.Perm.swap _ _ _) 0 0 0 0⟩

/-- C9: the head-position parameters do not influence
`calculate_point_of_regard`: only theta and phi enter the weighting. -/
theorem calculate_point_of_regard_ignores_head_position (a : InterpolationAgent)
    (head_x1 head_y1 head_x2 head_y2 theta phi : ℚ) :
    a.calculate_point_of_regard head_x1 head_y1 theta phi =
      a.calculate_point_of_regard head_x2 head_y2 theta phi := rfl

/-- C10: a point-of-regard query is a pure read: the post-call agent's
calibration map — its sample list, every parallel view, and their lengths —
equals the pre-call one. -/
theorem calculate_point_of_regard_run_preserves_map (a : InterpolationAgent)
    (head_x head_y theta phi : ℚ) :
    ((a.calculate_point_of_regard_run head_x head_y theta phi).2.calibration_map.samples =
        a.calibration_map.samples) ∧
      ((a.calculate_point_of_regard_run head_x head_y theta phi).2.calibration_map.monitor_x_values =
        a.calibration_map.monitor_x_values) ∧
      ((a.calculate_point_of_regard_run head_x head_y theta phi).2.calibration_map.monitor_y_values =
        a.calibration_map.monitor_y_values) ∧
      ((a.calculate_point_of_regard_run head_x head_y theta phi).2.calibration_map.head_x_values =
        a.calibration_map.head_x_values) ∧
      ((a.calculate_point_of_regard_run head_x head_y theta phi).2.calibration_map.head_y_values =
        a.calibration_map.head_y_values) ∧
      ((a.calculate_point_of_regard_run head_x head_y theta phi).2.calibration_map.theta_values =
        a.calibration_map.theta_values) ∧
      ((a.calculate_point_of_regard_run head_x head_y theta phi).2.calibration_map.phi_values =
        a.calibration_map.phi_values) ∧
      ((a.calculate_point_of_regard_run head_x head_y theta phi).2.calibration_map.samples.length =
        a.calibration_map.samples.length) :=
  ⟨rfl, rfl, rfl, rfl, rfl, rfl, rfl, rfl⟩
